import Mathlib

/-!
# Verification of the estateboards rental-agreement system

Shallow embedding of the Solidity contracts under `contracts/` (RentalCore,
ComplianceVerifier, PaymentManager, RentalUtils) together with proofs of the
specification's claims about them.

Modelling conventions:
* `address` and `bytes32` are modelled as `Nat`; the zero address / zero digest
  is `0`.  `uint256` is `Nat`; Solidity 0.8 checked arithmetic and SafeMath are
  modelled by the explicit helpers `uadd`, `usub`, `umul` which revert (return
  `Except.error`) exactly when the EVM would.
* Solidity mappings are total functions with the zero value of the struct as
  default, exactly as EVM storage behaves; existence checks are the source's
  own field tests (e.g. `_agreements[id].propertyId != 0`).
* A reverting call is `Except.error msg`; a revert discards all state changes,
  so a function either returns the whole updated state or an error.
* `keccak256`/`abi.encodePacked` digests are opaque to every claim; they are
  modelled by a concrete deterministic combiner (`keccakPacked`).  Role and
  permission identifiers (`keccak256("SYSTEM_ADMIN")` etc.) are modelled by
  closed enums, one constructor per string constant of the source.
* `block.timestamp` is an explicit `now : Nat` argument; `msg.sender` is an
  explicit `caller : Nat` argument; `msg.value` is an explicit `value : Nat`
  argument.
-/

namespace EstateBoards

/-- 2^256, the modulus of the EVM word.  Checked arithmetic reverts at this
bound instead of wrapping. -/
def UINT_MOD : Nat := 2 ^ 256

/-- SafeMath / Solidity 0.8 checked addition: reverts on overflow. -/
def uadd (a b : Nat) : Except String Nat :=
  if a + b < UINT_MOD then .ok (a + b) else .error "SafeMath: addition overflow"

/-- SafeMath / Solidity 0.8 checked subtraction: reverts on underflow. -/
def usub (a b : Nat) : Except String Nat :=
  if b ≤ a then .ok (a - b) else .error "SafeMath: subtraction overflow"

/-- SafeMath / Solidity 0.8 checked multiplication: reverts on overflow. -/
def umul (a b : Nat) : Except String Nat :=
  if a * b < UINT_MOD then .ok (a * b) else .error "SafeMath: multiplication overflow"

/-- Deterministic opaque digest combiner standing in for `keccak256` over one
`abi.encodePacked` argument list (Cantor pairing, folded).  No claim depends on
digest values, only on their being some concrete number. -/
def keccakPair (a b : Nat) : Nat := (a + b) * (a + b + 1) / 2 + b + 1

/-- Digest of a packed argument list, see `keccakPair`. -/
def keccakPacked (xs : List Nat) : Nat := xs.foldl keccakPair 0

/-- `enum AgreementStatus` of RentalCore.sol. -/
inductive AgreementStatus where
  | Pending
  | Active
  | Terminated
  | Expired
  | Disputed
deriving DecidableEq, Repr

/-- The `uint8` value of an `AgreementStatus`, as produced by Solidity's enum
cast. -/
def AgreementStatus.toNat : AgreementStatus → Nat
  | .Pending => 0
  | .Active => 1
  | .Terminated => 2
  | .Expired => 3
  | .Disputed => 4

/-- Decode of a `uint8` (already checked `≤ 4`) into `AgreementStatus`, as in
`AgreementStatus(status)`. -/
def AgreementStatus.decode : Nat → AgreementStatus
  | 0 => .Pending
  | 1 => .Active
  | 2 => .Terminated
  | 3 => .Expired
  | _ => .Disputed

/-- `enum PaymentType` of PaymentManager. -/
inductive PaymentType where
  | Rent
  | Deposit
  | LateFee
deriving DecidableEq, Repr

/-- The role string constants the contracts pass to
`accessManager.hasRole(…, keccak256("…"))`, one constructor per string. -/
inductive Role where
  | SYSTEM_ADMIN
  | LANDLORD
  | TENANT
  | BROKER
  | PROPERTY_MANAGER
  | LEGAL_VERIFIER
  | PAYMENT_MANAGER
deriving DecidableEq, Repr

/-- The permission string constants passed to `accessManager.hasPermission`. -/
inductive Permission where
  | REGISTER_PROPERTY
  | CREATE_AGREEMENT
  | UPDATE_AGREEMENT
  | PROCESS_PAYMENT
  | ACCESS_PAYMENT_HISTORY
  | VERIFY_COMPLIANCE
  | TRANSFER_OWNERSHIP
  | TERMINATE_AGREEMENT
  | UPDATE_SYSTEM
deriving DecidableEq, Repr

/-- `struct Property` of RentalCore.sol.  The default value is the EVM zero
struct returned by a mapping for an absent key. -/
structure Property where
  owner : Nat := 0
  dataHash : Nat := 0
  isActive : Bool := false
  agreementHistory : List Nat := []
deriving DecidableEq, Repr

/-- `struct Agreement` of RentalCore.sol (zero struct as default). -/
structure Agreement where
  propertyId : Nat := 0
  landlord : Nat := 0
  tenant : Nat := 0
  startDate : Nat := 0
  endDate : Nat := 0
  rentAmount : Nat := 0
  depositAmount : Nat := 0
  status : AgreementStatus := .Pending
  termsHash : Nat := 0
  amendmentHashes : List Nat := []
deriving DecidableEq, Repr

/-- `struct PaymentRecord` of PaymentManager. -/
structure PaymentRecord where
  timestamp : Nat := 0
  amount : Nat := 0
  paymentType : PaymentType := .Rent
  confirmed : Bool := false
deriving DecidableEq, Repr

/-- `struct ComplianceCheck` of ComplianceVerifier.sol. -/
structure ComplianceCheck where
  passed : Bool := false
  timestamp : Nat := 0
  detailsHash : Nat := 0
  verifier : Nat := 0
deriving DecidableEq, Repr

/-- Combined storage of the deployed system: RentalCore, ComplianceVerifier,
PaymentManager and the AccessControlManager views the other contracts consult.
Mappings are total functions with zero-struct defaults. -/
structure SystemState where
  -- RentalCore
  corePaused : Bool := false
  propertyCount : Nat := 0        -- `_propertyIds` counter
  agreementCount : Nat := 0       -- `_agreementIds` counter
  properties : Nat → Property := fun _ => {}
  agreements : Nat → Agreement := fun _ => {}
  userProperties : Nat → List Nat := fun _ => []
  userAgreements : Nat → List Nat := fun _ => []
  -- ComplianceVerifier
  compliancePaused : Bool := false
  paramsActive : Bool := false    -- `_currentParameters.active`
  complianceChecks : Nat → Nat → ComplianceCheck := fun _ _ => {}
  -- PaymentManager
  paymentPaused : Bool := false
  paymentHistory : Nat → List PaymentRecord := fun _ => []
  depositBalances : Nat → Nat := fun _ => 0
  lastPaymentDate : Nat → Nat := fun _ => 0
  outstandingBalance : Nat → Nat := fun _ => 0
  -- AccessControlManager (read-only views used by the contracts above)
  hasRole : Nat → Role → Bool := fun _ _ => false
  hasPermission : Nat → Permission → Bool := fun _ _ => false

/-- Pointwise update of a storage mapping. -/
def updf {α : Type} (f : Nat → α) (k : Nat) (v : α) : Nat → α :=
  fun i => if i = k then v else f i

/-- Pointwise update of a doubly-keyed storage mapping. -/
def updf2 {α : Type} (f : Nat → Nat → α) (k₁ k₂ : Nat) (v : α) : Nat → Nat → α :=
  fun i j => if i = k₁ ∧ j = k₂ then v else f i j

/-- `true` iff the call reverted. -/
def reverted {α : Type} (r : Except String α) : Bool :=
  match r with
  | .error _ => true
  | .ok _ => false

namespace RentalUtils

/-- Constants of RentalUtils.sol. -/
def MAX_DEPOSIT_MONTHS : Nat := 3

def MIN_RENTAL_PERIOD_DAYS : Nat := 30

def MAX_RENTAL_PERIOD_YEARS : Nat := 10

def SECONDS_PER_DAY : Nat := 86400

def DAYS_PER_YEAR : Nat := 365

/-- `RentalUtils.validateRentalPeriod` (pure): reason codes
0 = valid, 1 = end before start, 2 = too short, 3 = too long. -/
def validateRentalPeriod (startDate endDate : Nat) : Bool × Nat :=
  if startDate ≥ endDate then (false, 1)
  else
    let durationDays := (endDate - startDate) / SECONDS_PER_DAY
    if durationDays < MIN_RENTAL_PERIOD_DAYS then (false, 2)
    else if durationDays > MAX_RENTAL_PERIOD_YEARS * DAYS_PER_YEAR then (false, 3)
    else (true, 0)

/-- `RentalUtils.calculateLateFee`: `(amount * 1185 * daysLate) / 36500` with
Solidity 0.8 checked multiplication (left-associated, so `amount * 1185` is
checked first). -/
def calculateLateFee (amount daysLate : Nat) : Except String Nat := do
  let annualRate : Nat := 1185
  let x ← umul amount annualRate
  let y ← umul x daysLate
  return y / 36500

end RentalUtils

namespace RentalCore

/-- `getAgreementDetails` (view): the `agreementExists` modifier requires
`_agreements[agreementId].propertyId != 0`; the source returns the field tuple
(with `status` cast to `uint8`), modelled as the stored record. -/
def getAgreementDetails (s : SystemState) (agreementId : Nat) : Except String Agreement :=
  if (s.agreements agreementId).propertyId = 0 then .error "Agreement doesn't exist"
  else .ok (s.agreements agreementId)

/-- `getPropertyDetails` (view): `propertyExists` modifier requires
`_properties[propertyId].owner != address(0)`. -/
def getPropertyDetails (s : SystemState) (propertyId : Nat) : Except String (Nat × Nat × Bool) :=
  if (s.properties propertyId).owner = 0 then .error "Property doesn't exist"
  else .ok ((s.properties propertyId).owner,
            (s.properties propertyId).dataHash,
            (s.properties propertyId).isActive)

/-- Model address of the deployed RentalCore contract: the external calls it
makes have this as `msg.sender` (only recorded in the compliance cache's
`verifier` field; no claim depends on it). -/
def rentalCoreAddr : Nat := 900001

end RentalCore

namespace ComplianceVerifier

/-- Entity-type constants of ComplianceVerifier.sol. -/
def AGREEMENT_TYPE : Nat := 1

def PROPERTY_TYPE : Nat := 2

def LANDLORD_TYPE : Nat := 3

def TENANT_TYPE : Nat := 4

/-- `_recordComplianceCheck`: overwrites the cache entry keyed by
`(entityId, entityType)`. -/
def recordComplianceCheck (s : SystemState) (now sender entityId entityType : Nat)
    (passed : Bool) (detailsHash : Nat) : SystemState :=
  { s with
    complianceChecks := updf2 s.complianceChecks entityId entityType
      { passed := passed, timestamp := now, detailsHash := detailsHash, verifier := sender } }

/-- `_verifyPartyCompliance` (private, mutating): requires a nonzero party
address and a party type; in this revision the check always passes
(`checkPassed = true`); records the check keyed by the party address. -/
def verifyPartyCompliance (s : SystemState) (now sender party partyType : Nat) :
    Except String (SystemState × Bool × Nat) :=
  if party = 0 then .error "Invalid party address"
  else if ¬ (partyType = LANDLORD_TYPE ∨ partyType = TENANT_TYPE) then .error "Invalid party type"
  else
    let checkHash := keccakPacked [party, partyType, now]
    let checkPassed := true
    .ok (recordComplianceCheck s now sender party partyType checkPassed checkHash,
         checkPassed, checkHash)

/-- `_verifyPropertyCompliance` (private, mutating): always passes in this
revision; records the check under `PROPERTY_TYPE`. -/
def verifyPropertyCompliance (s : SystemState) (now sender propertyId : Nat) :
    SystemState × Bool × Nat :=
  let checkHash := keccakPacked [propertyId, now]
  let checkPassed := true
  (recordComplianceCheck s now sender propertyId PROPERTY_TYPE checkPassed checkHash,
   checkPassed, checkHash)

/-- `verifyContractCompliance(agreementId)`: requires the compliance parameters
to be configured (`_currentParameters.active`), fetches the agreement's details
from RentalCore (reverting when no agreement with that id exists), verifies
landlord, tenant and property, records the combined result under
`AGREEMENT_TYPE` and returns it. -/
def verifyContractCompliance (s : SystemState) (now sender agreementId : Nat) :
    Except String (SystemState × Bool × Nat) :=
  if s.compliancePaused then .error "Pausable: paused"
  else if ¬ s.paramsActive then .error "Compliance parameters not set"
  else do
    let a ← RentalCore.getAgreementDetails s agreementId
    let (s₁, landlordCompliant, landlordDetails) ←
      verifyPartyCompliance s now sender a.landlord LANDLORD_TYPE
    let (s₂, tenantCompliant, tenantDetails) ←
      verifyPartyCompliance s₁ now sender a.tenant TENANT_TYPE
    let (s₃, propertyCompliant, propertyDetails) :=
      verifyPropertyCompliance s₂ now sender a.propertyId
    let allCompliant := landlordCompliant && tenantCompliant && propertyCompliant
    let finalHash := keccakPacked [landlordDetails, tenantDetails, propertyDetails]
    let s₄ := recordComplianceCheck s₃ now sender agreementId AGREEMENT_TYPE allCompliant finalHash
    return (s₄, allCompliant, finalHash)

end ComplianceVerifier

namespace RentalCore

/-- `registerProperty(dataHash)`: requires a nonzero data hash and the
`REGISTER_PROPERTY` permission; assigns the next property id, stores the
record with `owner = caller`, `isActive = true`, empty history, and appends the
id to the caller's property index. -/
def registerProperty (s : SystemState) (caller dataHash : Nat) :
    Except String (SystemState × Nat) :=
  if s.corePaused then .error "Pausable: paused"
  else if dataHash = 0 then .error "Invalid property data"
  else if ¬ s.hasPermission caller .REGISTER_PROPERTY then .error "No permission"
  else
    let newPropertyId := s.propertyCount + 1
    .ok ({ s with
            propertyCount := newPropertyId,
            properties := updf s.properties newPropertyId
              { owner := caller, dataHash := dataHash, isActive := true, agreementHistory := [] },
            userProperties := updf s.userProperties caller
              (s.userProperties caller ++ [newPropertyId]) },
         newPropertyId)

/-- `createAgreement`: the `propertyExists` modifier runs first, then the body
`require`s in source order (tenant, terms, startDate, endDate, rentAmount,
depositAmount, owner, isActive), then the external compliance call — on the
*property id* — and finally the storage writes. -/
def createAgreement (s : SystemState)
    (now caller propertyId tenant terms startDate endDate rentAmount depositAmount : Nat) :
    Except String (SystemState × Nat) :=
  if s.corePaused then .error "Pausable: paused"
  else if (s.properties propertyId).owner = 0 then .error "Property doesn't exist"
  else if tenant = 0 then .error "Invalid tenant address"
  else if terms = 0 then .error "Invalid terms"
  else if ¬ (startDate > now) then .error "Invalid start date"
  else if ¬ (endDate > startDate) then .error "Invalid end date"
  else if ¬ (rentAmount > 0) then .error "Invalid rent amount"
  else if ¬ (depositAmount > 0) then .error "Invalid deposit amount"
  else if ¬ ((s.properties propertyId).owner = caller) then .error "Not property owner"
  else if ¬ (s.properties propertyId).isActive then .error "Property not active"
  else
    match ComplianceVerifier.verifyContractCompliance s now rentalCoreAddr propertyId with
    | .error e => .error e
    | .ok (s₁, compliant, _) =>
      if ¬ compliant then .error "Failed compliance check"
      else
        let newAgreementId := s₁.agreementCount + 1
        let newAgreement : Agreement :=
          { propertyId := propertyId, landlord := caller, tenant := tenant,
            startDate := startDate, endDate := endDate, rentAmount := rentAmount,
            depositAmount := depositAmount, status := .Pending, termsHash := terms,
            amendmentHashes := [] }
        let ua₁ := updf s₁.userAgreements caller (s₁.userAgreements caller ++ [newAgreementId])
        let ua₂ := updf ua₁ tenant (ua₁ tenant ++ [newAgreementId])
        .ok ({ s₁ with
                agreementCount := newAgreementId,
                agreements := updf s₁.agreements newAgreementId newAgreement,
                properties := updf s₁.properties propertyId
                  { s₁.properties propertyId with
                    agreementHistory :=
                      (s₁.properties propertyId).agreementHistory ++ [newAgreementId] },
                userAgreements := ua₂ },
             newAgreementId)

/-- `terminateAgreement`: modifiers `agreementExists` then `onlyAgreementParty`,
then `require(status == Active)`, then the external compliance call on the
agreement id, then `status := Terminated`. -/
def terminateAgreement (s : SystemState) (now caller agreementId : Nat) :
    Except String SystemState :=
  if s.corePaused then .error "Pausable: paused"
  else if (s.agreements agreementId).propertyId = 0 then .error "Agreement doesn't exist"
  else if ¬ ((s.agreements agreementId).landlord = caller ∨
             (s.agreements agreementId).tenant = caller) then .error "Not agreement party"
  else if ¬ ((s.agreements agreementId).status = .Active) then .error "Agreement not active"
  else
    match ComplianceVerifier.verifyContractCompliance s now rentalCoreAddr agreementId with
    | .error e => .error e
    | .ok (s₁, compliant, _) =>
      if ¬ compliant then .error "Failed compliance check"
      else .ok { s₁ with
                  agreements := updf s₁.agreements agreementId
                    { s₁.agreements agreementId with status := .Terminated } }

/-- `updateAgreementStatus(agreementId, status)`: `agreementExists` modifier,
`UPDATE_AGREEMENT` permission, `status ≤ uint8(Disputed)`; then sets the status
unconditionally — no transition-table enforcement. -/
def updateAgreementStatus (s : SystemState) (caller agreementId status : Nat) :
    Except String SystemState :=
  if s.corePaused then .error "Pausable: paused"
  else if (s.agreements agreementId).propertyId = 0 then .error "Agreement doesn't exist"
  else if ¬ s.hasPermission caller .UPDATE_AGREEMENT then .error "No permission"
  else if ¬ (status ≤ 4) then .error "Invalid status"
  else .ok { s with
              agreements := updf s.agreements agreementId
                { s.agreements agreementId with status := AgreementStatus.decode status } }

/-- Modelled from the spec: `transferOwnership(caller, propertyId, newOwner)`
is listed in spec §4.1 and declared in the repository's architecture document
(Property contract, `+transferOwnership(newOwner)`), but no Solidity
implementation of it exists under the sources.  Following the spec's words:
"fails unless caller == current owner; updates owner in place; does not alter
agreementHistory". -/
def transferOwnership (s : SystemState) (caller propertyId newOwner : Nat) :
    Except String SystemState :=
  if ¬ ((s.properties propertyId).owner = caller) then .error "Not property owner"
  else .ok { s with
              properties := updf s.properties propertyId
                { s.properties propertyId with owner := newOwner } }

end RentalCore

namespace PaymentManager

/-- Constants of PaymentManager. -/
def LATE_FEE_PERCENTAGE : Nat := 10

def GRACE_PERIOD_DAYS : Nat := 5

def SECONDS_PER_DAY : Nat := 86400

/-- The Solidity literal `30 days` used in `_updateOutstandingBalance`. -/
def THIRTY_DAYS : Nat := 2592000

/-- The unchecked value of the loop in `_updateOutstandingBalance`: sum of the
amounts of confirmed `Rent` records. -/
def sumConfirmedRent (records : List PaymentRecord) : Nat :=
  records.foldl
    (fun acc r => if r.paymentType = .Rent ∧ r.confirmed then acc + r.amount else acc) 0

/-- The loop of `_updateOutstandingBalance` with SafeMath `add`: reverts if the
running sum overflows. -/
def sumConfirmedRentChecked (records : List PaymentRecord) : Except String Nat :=
  records.foldlM
    (fun acc r => if r.paymentType = .Rent ∧ r.confirmed then uadd acc r.amount else .ok acc) 0

/-- `_updateOutstandingBalance`: recomputes
`rentAmount * ((now - startDate) / 30 days + 1) - sum(confirmed rent)`,
floored at 0, with SafeMath on every step. -/
def updateOutstandingBalance (s : SystemState) (now agreementId : Nat) :
    Except String SystemState := do
  let a ← RentalCore.getAgreementDetails s agreementId
  let elapsed ← usub now a.startDate
  let monthsSinceStart := elapsed / THIRTY_DAYS
  let m1 ← uadd monthsSinceStart 1
  let expectedTotal ← umul a.rentAmount m1
  let totalPaid ← sumConfirmedRentChecked (s.paymentHistory agreementId)
  let newBalance := if expectedTotal > totalPaid then expectedTotal - totalPaid else 0
  return { s with outstandingBalance := updf s.outstandingBalance agreementId newBalance }

/-- `processRentPayment` (payable): `onlyValidAgreement` modifier (agreement
details fetch + `status == 1`), `msg.value >= rentAmount`, append a confirmed
`Rent` record, set `lastPaymentDate`, recompute the outstanding balance. -/
def processRentPayment (s : SystemState) (now _caller value agreementId : Nat) :
    Except String (SystemState × Bool) := do
  if s.paymentPaused then .error "Pausable: paused"
  else do
    let a₀ ← RentalCore.getAgreementDetails s agreementId
    if ¬ (a₀.status.toNat = 1) then .error "Agreement not active"
    else do
      let a ← RentalCore.getAgreementDetails s agreementId
      if value < a.rentAmount then .error "Insufficient payment"
      else do
        let newPayment : PaymentRecord :=
          { timestamp := now, amount := value, paymentType := .Rent, confirmed := true }
        let s₁ := { s with
          paymentHistory := updf s.paymentHistory agreementId
            (s.paymentHistory agreementId ++ [newPayment]),
          lastPaymentDate := updf s.lastPaymentDate agreementId now }
        let s₂ ← updateOutstandingBalance s₁ now agreementId
        return (s₂, true)

/-- `processDeposit` (payable): `onlyValidAgreement`, `msg.value >=
depositAmount`, append a confirmed `Deposit` record, add the full paid amount
to the deposit balance (SafeMath `add`). -/
def processDeposit (s : SystemState) (now _caller value agreementId : Nat) :
    Except String (SystemState × Bool) := do
  if s.paymentPaused then .error "Pausable: paused"
  else do
    let a₀ ← RentalCore.getAgreementDetails s agreementId
    if ¬ (a₀.status.toNat = 1) then .error "Agreement not active"
    else do
      let a ← RentalCore.getAgreementDetails s agreementId
      if value < a.depositAmount then .error "Insufficient deposit"
      else do
        let newPayment : PaymentRecord :=
          { timestamp := now, amount := value, paymentType := .Deposit, confirmed := true }
        let bal ← uadd (s.depositBalances agreementId) value
        return ({ s with
                   paymentHistory := updf s.paymentHistory agreementId
                     (s.paymentHistory agreementId ++ [newPayment]),
                   depositBalances := updf s.depositBalances agreementId bal },
                true)

/-- `releaseDeposit`: `onlyAuthorized` (PAYMENT_MANAGER or SYSTEM_ADMIN role),
nonzero recipient, `amount <= depositBalance`; decrements the balance, then the
low-level ETH transfer — `xferOk` models whether that call succeeds; on failure
the whole operation reverts (`Transfer failed`), rolling back the decrement. -/
def releaseDeposit (s : SystemState) (caller agreementId amount recipient : Nat)
    (xferOk : Bool) : Except String (SystemState × Bool) :=
  if s.paymentPaused then .error "Pausable: paused"
  else if ¬ (s.hasRole caller .PAYMENT_MANAGER || s.hasRole caller .SYSTEM_ADMIN) then
    .error "Not authorized"
  else if recipient = 0 then .error "Invalid recipient"
  else if ¬ (amount ≤ s.depositBalances agreementId) then .error "Insufficient deposit balance"
  else if ¬ xferOk then .error "Transfer failed"
  else .ok ({ s with
              depositBalances := updf s.depositBalances agreementId
                (s.depositBalances agreementId - amount) },
            true)

/-- `_calculateLateFees` (view): `lastPayment` falls back to `startDate` when
no payment is recorded; zero fee within the 5-day grace period, else a flat
`rentAmount * 10 / 100`. -/
def calculateLateFees (s : SystemState) (now agreementId : Nat) : Except String Nat := do
  let a ← RentalCore.getAgreementDetails s agreementId
  let lastPayment₀ := s.lastPaymentDate agreementId
  let lastPayment := if lastPayment₀ = 0 then a.startDate else lastPayment₀
  let diff ← usub now lastPayment
  let daysLate := diff / SECONDS_PER_DAY
  if daysLate ≤ GRACE_PERIOD_DAYS then return 0
  else do
    let x ← umul a.rentAmount LATE_FEE_PERCENTAGE
    return x / 100

/-- `calculateOutstandingRent` (view): the stored outstanding balance plus a
fresh late-fee computation. -/
def calculateOutstandingRent (s : SystemState) (now agreementId : Nat) :
    Except String (Nat × Nat) := do
  let lateFees ← calculateLateFees s now agreementId
  return (s.outstandingBalance agreementId, lateFees)

/-- `getDepositBalance` (view). -/
def getDepositBalance (s : SystemState) (agreementId : Nat) : Nat :=
  s.depositBalances agreementId

end PaymentManager

/-! ## Generic lemmas about the embedding -/

theorem ebind_error {α β : Type} (e : String) (f : α → Except String β) :
    (Except.error e >>= f) = Except.error e := rfl

theorem ebind_ok {α β : Type} (a : α) (f : α → Except String β) :
    (Except.ok a >>= f) = f a := rfl

theorem reverted_error {α : Type} (e : String) :
    reverted (Except.error e : Except String α) = true := rfl

theorem usub_ok_of_le {a b : Nat} (h : b ≤ a) : usub a b = .ok (a - b) := by
  simp [usub, h]

theorem uadd_ok_of_lt {a b : Nat} (h : a + b < UINT_MOD) : uadd a b = .ok (a + b) := by
  simp [uadd, h]

theorem umul_ok_of_lt {a b : Nat} (h : a * b < UINT_MOD) : umul a b = .ok (a * b) := by
  simp [umul, h]

/-! ## Claim C9 — `validateRentalPeriod` -/

/-- `validateRentalPeriod` as a flat conditional (constants folded). -/
theorem validateRentalPeriod_eq (startDate endDate : Nat) :
    RentalUtils.validateRentalPeriod startDate endDate =
      if startDate ≥ endDate then (false, 1)
      else if (endDate - startDate) / 86400 < 30 then (false, 2)
      else if (endDate - startDate) / 86400 > 3650 then (false, 3)
      else (true, 0) := by
  simp only [RentalUtils.validateRentalPeriod, RentalUtils.MIN_RENTAL_PERIOD_DAYS,
    RentalUtils.MAX_RENTAL_PERIOD_YEARS, RentalUtils.DAYS_PER_YEAR,
    RentalUtils.SECONDS_PER_DAY]

/-- C9: `validateRentalPeriod` returns `(true, 0)` iff `endDate > startDate`
and the whole-day duration `(endDate − startDate) / 86400` is between 30 and
3650 inclusive; otherwise `(false, 1)` when `startDate ≥ endDate`,
`(false, 2)` when the duration is below 30, and `(false, 3)` when it exceeds
3650. -/
theorem claim_C9_validateRentalPeriod_reason_codes (startDate endDate : Nat) :
    (RentalUtils.validateRentalPeriod startDate endDate = (true, 0) ↔
      (startDate < endDate ∧ 30 ≤ (endDate - startDate) / 86400 ∧
        (endDate - startDate) / 86400 ≤ 3650))
    ∧ (startDate ≥ endDate →
        RentalUtils.validateRentalPeriod startDate endDate = (false, 1))
    ∧ (startDate < endDate → (endDate - startDate) / 86400 < 30 →
        RentalUtils.validateRentalPeriod startDate endDate = (false, 2))
    ∧ (startDate < endDate → 3650 < (endDate - startDate) / 86400 →
        RentalUtils.validateRentalPeriod startDate endDate = (false, 3)) := by
  refine ⟨?_, ?_, ?_, ?_⟩
  · rw [validateRentalPeriod_eq]
    constructor
    · intro h
      split_ifs at h with h1 h2 h3
      · simp at h
      · simp at h
      · simp at h
      · exact ⟨by omega, by omega, by omega⟩
    · rintro ⟨h1, h2, h3⟩
      rw [if_neg (by omega), if_neg (by omega), if_neg (by omega)]
  · intro h; rw [validateRentalPeriod_eq, if_pos h]
  · intro h1 h2
    rw [validateRentalPeriod_eq, if_neg (by omega), if_pos h2]
  · intro h1 h2
    rw [validateRentalPeriod_eq, if_neg (by omega), if_neg (by omega), if_pos h2]

/-- Witness for C9 at a concrete valid period (exactly 30 whole days) and the
three failure inputs. -/
theorem claim_C9_witness :
    RentalUtils.validateRentalPeriod 1000 (1000 + 86400 * 30) = (true, 0) :=
  (claim_C9_validateRentalPeriod_reason_codes 1000 (1000 + 86400 * 30)).1.mpr
    (by refine ⟨by norm_num, by norm_num, by norm_num⟩)

/-! ## Claim C8 — `RentalUtils.calculateLateFee` -/

/-- C8 counterexample: the claim asserts `calculateLateFee(amount, daysLate) = 0`
whenever `daysLate ≤ 5`, but the utility applies no grace period:
`calculateLateFee(1000, 1) = 1000·1185·1/36500 = 32 ≠ 0` although `1 ≤ 5`. -/
theorem claim_C8_counterexample :
    (1 : Nat) ≤ 5 ∧ RentalUtils.calculateLateFee 1000 1 = .ok 32 ∧ (32 : Nat) ≠ 0 :=
  ⟨by norm_num, by rfl, by norm_num⟩

/-- C8 amended: `calculateLateFee(amount, daysLate)` equals the exact integer
formula `amount × 1185 × daysLate / 36500` whenever the two checked
multiplications stay below 2^256 — with **no** grace-period cutoff inside the
function (the 5-day grace period lives in the callers, not here); in
particular `calculateLateFee(amount, 0) = 0` and
`calculateLateFee(1000, 10) = 324`. -/
theorem claim_C8_amended_statutory_formula :
    (∀ amount daysLate : Nat, amount * 1185 < UINT_MOD →
        amount * 1185 * daysLate < UINT_MOD →
        RentalUtils.calculateLateFee amount daysLate = .ok (amount * 1185 * daysLate / 36500))
    ∧ (∀ amount : Nat, amount * 1185 < UINT_MOD →
        RentalUtils.calculateLateFee amount 0 = .ok 0)
    ∧ RentalUtils.calculateLateFee 1000 10 = .ok 324 := by
  refine ⟨?_, ?_, by rfl⟩
  · intro amount daysLate h1 h2
    simp [RentalUtils.calculateLateFee, umul_ok_of_lt h1, umul_ok_of_lt h2, ebind_ok]
  · intro amount h1
    have h2 : amount * 1185 * 0 < UINT_MOD := by
      simp only [Nat.mul_zero]
      norm_num [UINT_MOD]
    simp [RentalUtils.calculateLateFee, umul_ok_of_lt h1, umul_ok_of_lt h2, ebind_ok]

/-- Witness for C8's amended theorem at `amount = 1000`, `daysLate = 10`. -/
theorem claim_C8_witness :
    RentalUtils.calculateLateFee 1000 10 = .ok (1000 * 1185 * 10 / 36500) :=
  claim_C8_amended_statutory_formula.1 1000 10 (by norm_num [UINT_MOD]) (by norm_num [UINT_MOD])

/-! ## Claim C10 — `transferOwnership` (modelled from the spec) -/

/-- C10: on a registered property, `transferOwnership` fails unless the caller
is the current owner; on success it updates the owner in place and leaves
`agreementHistory` (and the rest of the property record) unchanged. -/
theorem claim_C10_transferOwnership_owner_only (s : SystemState)
    (caller propertyId newOwner : Nat)
    (hreg : (s.properties propertyId).owner ≠ 0) :
    (caller ≠ (s.properties propertyId).owner →
      reverted (RentalCore.transferOwnership s caller propertyId newOwner) = true)
    ∧ (caller = (s.properties propertyId).owner →
        ∃ s', RentalCore.transferOwnership s caller propertyId newOwner = .ok s'
          ∧ (s'.properties propertyId).owner = newOwner
          ∧ (s'.properties propertyId).agreementHistory =
              (s.properties propertyId).agreementHistory) := by
  constructor
  · intro hne
    have hc : ¬ ((s.properties propertyId).owner = caller) := fun h => hne h.symm
    rw [RentalCore.transferOwnership, if_pos hc]
    rfl
  · intro heq
    have hres : RentalCore.transferOwnership s caller propertyId newOwner =
        .ok { s with
              properties := updf s.properties propertyId
                { s.properties propertyId with owner := newOwner } } := by
      simp [RentalCore.transferOwnership, heq]
    refine ⟨_, hres, ?_, ?_⟩ <;> simp [updf]

/-- Concrete property registry used by the C10 witness: property 1 owned by
address 5, with one agreement (id 4) in its history. -/
def c10State : SystemState :=
  { properties := updf (fun _ => {}) 1
      { owner := 5, dataHash := 7, isActive := true, agreementHistory := [4] } }

/-- Witness for C10: owner 5 transfers property 1 to address 9; the history is
untouched. -/
theorem claim_C10_witness :
    ∃ s', RentalCore.transferOwnership c10State 5 1 9 = .ok s'
      ∧ (s'.properties 1).owner = 9
      ∧ (s'.properties 1).agreementHistory = (c10State.properties 1).agreementHistory :=
  (claim_C10_transferOwnership_owner_only c10State 5 1 9 (by decide)).2 (by decide)

/-! ## Claims C4, C1, C2 — agreement state machine -/

/-- Status of an agreement after a (possibly reverting) state-updating call:
`none` when the call reverted. -/
def statusAfter (r : Except String SystemState) (agreementId : Nat) :
    Option AgreementStatus :=
  match r with
  | .ok s => some ((s.agreements agreementId).status)
  | .error _ => none

/-- A state with one Terminated agreement (id 1, landlord 5, tenant 6) and an
actor 7 holding the `UPDATE_AGREEMENT` permission. -/
def c4State : SystemState :=
  { agreements := updf (fun _ => {}) 1
      { propertyId := 1, landlord := 5, tenant := 6, startDate := 100, endDate := 200,
        rentAmount := 10, depositAmount := 20, status := .Terminated, termsHash := 3 },
    hasPermission := fun a p => decide (a = 7 ∧ p = Permission.UPDATE_AGREEMENT) }

/-- C4 counterexample: agreement 1 is `Terminated` (a claimed terminal state),
yet the subsequent operation `updateAgreementStatus(1, Active)` by a holder of
the `UPDATE_AGREEMENT` permission succeeds and moves its status back to
`Active` — the administrative override enforces no transition table. -/
theorem claim_C4_counterexample :
    (c4State.agreements 1).status = .Terminated
    ∧ statusAfter (RentalCore.updateAgreementStatus c4State 7 1 1) 1 = some .Active :=
  ⟨rfl, rfl⟩

/-- C4 amended: once an agreement is `Terminated`, `Expired` or `Disputed`,
`terminateAgreement` always fails on it (its status guard requires `Active`);
however the privileged `updateAgreementStatus` override enforces no transition
table: for a permitted caller and *any* in-range status value `st ≤ 4` it
succeeds from any current status — a terminal one included, reopening it as
the counterexample's Terminated → Active instance shows — and sets exactly
the decoded status.  (The sources contain no amendment-recording operation,
so the original claim's amendment clause has no code to check.) -/
theorem claim_C4_amended_terminal_vs_override (s : SystemState)
    (now caller agreementId st : Nat) :
    ((s.agreements agreementId).status = .Terminated ∨
     (s.agreements agreementId).status = .Expired ∨
     (s.agreements agreementId).status = .Disputed →
      reverted (RentalCore.terminateAgreement s now caller agreementId) = true)
    ∧ (s.corePaused = false → (s.agreements agreementId).propertyId ≠ 0 →
       s.hasPermission caller .UPDATE_AGREEMENT = true → st ≤ 4 →
       RentalCore.updateAgreementStatus s caller agreementId st =
         .ok { s with
               agreements := updf s.agreements agreementId
                 { s.agreements agreementId with
                   status := AgreementStatus.decode st } }) := by
  constructor
  · intro h
    unfold RentalCore.terminateAgreement
    split_ifs with h1 h2 h3 h4
    any_goals rfl
    exfalso
    rcases h with h | h | h <;> rw [h] at h4 <;> simp at h4
  · intro hcp hex hperm hle
    unfold RentalCore.updateAgreementStatus
    rw [if_neg (by simp [hcp]), if_neg hex, if_neg (not_not_intro hperm),
      if_neg (not_not_intro hle)]

/-- Witness for C4's amended theorem: on the concrete Terminated agreement,
`terminateAgreement` reverts, while the permitted override succeeds and sets
status 3 (`Expired`) — another in-range status from a terminal one. -/
theorem claim_C4_witness :
    reverted (RentalCore.terminateAgreement c4State 0 5 1) = true
    ∧ RentalCore.updateAgreementStatus c4State 7 1 3 =
        .ok { c4State with
              agreements := updf c4State.agreements 1
                { c4State.agreements 1 with status := AgreementStatus.decode 3 } } :=
  ⟨(claim_C4_amended_terminal_vs_override c4State 0 5 1 3).1 (Or.inl rfl),
   (claim_C4_amended_terminal_vs_override c4State 0 7 1 3).2 rfl (by decide) (by decide)
     (by decide)⟩

/-- `verifyContractCompliance` reverts whenever no agreement with the queried
id exists: the agreement-details fetch fails its existence check (and when the
compliance parameters are unset it reverts even earlier). -/
theorem verifyContractCompliance_error_of_absent (s : SystemState)
    (now sender agreementId : Nat)
    (h : (s.agreements agreementId).propertyId = 0) :
    ∃ e, ComplianceVerifier.verifyContractCompliance s now sender agreementId = .error e := by
  unfold ComplianceVerifier.verifyContractCompliance
  split_ifs with h1 h2
  any_goals exact ⟨_, rfl⟩
  rw [show RentalCore.getAgreementDetails s agreementId = .error "Agreement doesn't exist"
    from by simp [RentalCore.getAgreementDetails, h]]
  exact ⟨_, ebind_error _ _⟩

/-- An error short-circuit through one `require`-style conditional. -/
theorem reverted_ite_error {γ : Type} (c : Prop) [Decidable c] (e : String)
    (r : Except String γ) (hr : reverted r = true) :
    reverted (if c then .error e else r) = true := by
  split
  · rfl
  · exact hr

/-- C1: in every state with no agreement whose id equals `propertyId`, every
`createAgreement(propertyId, …)` call reverts: even when all preconditions
pass, the compliance step calls `verifyContractCompliance(propertyId)`, which
fetches agreement details for that id and fails their existence check.  In
particular on a fresh deployment the first `createAgreement` call always
fails. -/
theorem claim_C1_createAgreement_always_reverts_without_preexisting_agreement
    (s : SystemState)
    (now caller propertyId tenant terms startDate endDate rentAmount depositAmount : Nat)
    (h : (s.agreements propertyId).propertyId = 0) :
    reverted (RentalCore.createAgreement s now caller propertyId tenant terms
      startDate endDate rentAmount depositAmount) = true := by
  unfold RentalCore.createAgreement
  obtain ⟨e, he⟩ :=
    verifyContractCompliance_error_of_absent s now RentalCore.rentalCoreAddr propertyId h
  rw [he]
  iterate 10 apply reverted_ite_error
  rfl

/-- A state holding one registered, active property (id 1, owner 5) with the
compliance parameters configured — the most favourable situation for
`createAgreement` — and no agreement at all. -/
def regState : SystemState :=
  { properties := updf (fun _ => {}) 1 { owner := 5, dataHash := 7, isActive := true },
    paramsActive := true }

/-- Witness for C1: the property owner calls `createAgreement` with entirely
valid arguments on the fresh system and the call still reverts. -/
theorem claim_C1_witness :
    reverted (RentalCore.createAgreement regState 50 5 1 6 7 100 200 10 20) = true :=
  claim_C1_createAgreement_always_reverts_without_preexisting_agreement
    regState 50 5 1 6 7 100 200 10 20 rfl

/-- C2 counterexample: property 1 exists and caller 6 is *not* its owner
(owner is 5), and the tenant argument is zero; the claim requires the
ownership error to win, but the code checks the tenant first and fails with
`Invalid tenant address`. -/
theorem claim_C2_counterexample :
    (regState.properties 1).owner ≠ 0
    ∧ (6 : Nat) ≠ (regState.properties 1).owner
    ∧ RentalCore.createAgreement regState 0 6 1 0 7 100 200 10 20 =
        .error "Invalid tenant address"
    ∧ "Invalid tenant address" ≠ "Not property owner" :=
  ⟨by decide, by decide, rfl, by decide⟩

/-- C2 amended: `createAgreement` checks its preconditions in this order,
first failure winning: property exists; `tenant ≠ 0`; `terms ≠ 0`;
`startDate > now`; `endDate > startDate`; `rentAmount > 0`;
`depositAmount > 0`; `caller == property.owner`; `property.isActive` — i.e.
the ownership/activity checks run *after* the input validations, so an
invalid tenant/terms/date/amount error wins over `Not property owner`. -/
theorem claim_C2_amended_actual_check_order (s : SystemState)
    (now caller propertyId tenant terms startDate endDate rentAmount depositAmount : Nat)
    (hnp : s.corePaused = false) :
    ((s.properties propertyId).owner = 0 →
      RentalCore.createAgreement s now caller propertyId tenant terms startDate endDate
        rentAmount depositAmount = .error "Property doesn't exist")
    ∧ ((s.properties propertyId).owner ≠ 0 → tenant = 0 →
      RentalCore.createAgreement s now caller propertyId tenant terms startDate endDate
        rentAmount depositAmount = .error "Invalid tenant address")
    ∧ ((s.properties propertyId).owner ≠ 0 → tenant ≠ 0 → terms = 0 →
      RentalCore.createAgreement s now caller propertyId tenant terms startDate endDate
        rentAmount depositAmount = .error "Invalid terms")
    ∧ ((s.properties propertyId).owner ≠ 0 → tenant ≠ 0 → terms ≠ 0 → startDate ≤ now →
      RentalCore.createAgreement s now caller propertyId tenant terms startDate endDate
        rentAmount depositAmount = .error "Invalid start date")
    ∧ ((s.properties propertyId).owner ≠ 0 → tenant ≠ 0 → terms ≠ 0 → now < startDate →
      endDate ≤ startDate →
      RentalCore.createAgreement s now caller propertyId tenant terms startDate endDate
        rentAmount depositAmount = .error "Invalid end date")
    ∧ ((s.properties propertyId).owner ≠ 0 → tenant ≠ 0 → terms ≠ 0 → now < startDate →
      startDate < endDate → rentAmount = 0 →
      RentalCore.createAgreement s now caller propertyId tenant terms startDate endDate
        rentAmount depositAmount = .error "Invalid rent amount")
    ∧ ((s.properties propertyId).owner ≠ 0 → tenant ≠ 0 → terms ≠ 0 → now < startDate →
      startDate < endDate → rentAmount ≠ 0 → depositAmount = 0 →
      RentalCore.createAgreement s now caller propertyId tenant terms startDate endDate
        rentAmount depositAmount = .error "Invalid deposit amount")
    ∧ ((s.properties propertyId).owner ≠ 0 → tenant ≠ 0 → terms ≠ 0 → now < startDate →
      startDate < endDate → rentAmount ≠ 0 → depositAmount ≠ 0 →
      (s.properties propertyId).owner ≠ caller →
      RentalCore.createAgreement s now caller propertyId tenant terms startDate endDate
        rentAmount depositAmount = .error "Not property owner")
    ∧ ((s.properties propertyId).owner ≠ 0 → tenant ≠ 0 → terms ≠ 0 → now < startDate →
      startDate < endDate → rentAmount ≠ 0 → depositAmount ≠ 0 →
      (s.properties propertyId).owner = caller →
      (s.properties propertyId).isActive = false →
      RentalCore.createAgreement s now caller propertyId tenant terms startDate endDate
        rentAmount depositAmount = .error "Property not active") := by
  have hb : ¬ (s.corePaused = true) := by simp [hnp]
  refine ⟨?_, ?_, ?_, ?_, ?_, ?_, ?_, ?_, ?_⟩
  · intro h1
    unfold RentalCore.createAgreement
    rw [if_neg hb, if_pos h1]
  · intro h1 h2
    unfold RentalCore.createAgreement
    rw [if_neg hb, if_neg h1, if_pos h2]
  · intro h1 h2 h3
    unfold RentalCore.createAgreement
    rw [if_neg hb, if_neg h1, if_neg h2, if_pos h3]
  · intro h1 h2 h3 h4
    unfold RentalCore.createAgreement
    rw [if_neg hb, if_neg h1, if_neg h2, if_neg h3,
      if_pos (show ¬ (startDate > now) by omega)]
  · intro h1 h2 h3 h4 h5
    unfold RentalCore.createAgreement
    rw [if_neg hb, if_neg h1, if_neg h2, if_neg h3, if_neg (not_not_intro h4),
      if_pos (show ¬ (endDate > startDate) by omega)]
  · intro h1 h2 h3 h4 h5 h6
    unfold RentalCore.createAgreement
    rw [if_neg hb, if_neg h1, if_neg h2, if_neg h3, if_neg (not_not_intro h4),
      if_neg (not_not_intro h5), if_pos (show ¬ (rentAmount > 0) by omega)]
  · intro h1 h2 h3 h4 h5 h6 h7
    unfold RentalCore.createAgreement
    rw [if_neg hb, if_neg h1, if_neg h2, if_neg h3, if_neg (not_not_intro h4),
      if_neg (not_not_intro h5), if_neg (show ¬ ¬ (rentAmount > 0) by omega),
      if_pos (show ¬ (depositAmount > 0) by omega)]
  · intro h1 h2 h3 h4 h5 h6 h7 h8
    unfold RentalCore.createAgreement
    rw [if_neg hb, if_neg h1, if_neg h2, if_neg h3, if_neg (not_not_intro h4),
      if_neg (not_not_intro h5), if_neg (show ¬ ¬ (rentAmount > 0) by omega),
      if_neg (show ¬ ¬ (depositAmount > 0) by omega), if_pos h8]
  · intro h1 h2 h3 h4 h5 h6 h7 h8 h9
    unfold RentalCore.createAgreement
    rw [if_neg hb, if_neg h1, if_neg h2, if_neg h3, if_neg (not_not_intro h4),
      if_neg (not_not_intro h5), if_neg (show ¬ ¬ (rentAmount > 0) by omega),
      if_neg (show ¬ ¬ (depositAmount > 0) by omega), if_neg (not_not_intro h8),
      if_pos (show ¬ ((s.properties propertyId).isActive = true) by simp [h9])]

/-- Witness for C2's amended theorem: on a completely fresh system the first
check to fire is the property-existence check. -/
theorem claim_C2_witness :
    RentalCore.createAgreement {} 0 6 1 0 7 100 200 10 20 =
      .error "Property doesn't exist" :=
  (claim_C2_amended_actual_check_order {} 0 6 1 0 7 100 200 10 20 rfl).1 rfl

/-! ## Claim C3 — `terminateAgreement` lifecycle -/

/-- `_verifyPartyCompliance` succeeds (and passes) for any nonzero party and a
valid party type. -/
theorem verifyPartyCompliance_ok (s : SystemState) (now sender party partyType : Nat)
    (hparty : party ≠ 0)
    (hty : partyType = ComplianceVerifier.LANDLORD_TYPE ∨
           partyType = ComplianceVerifier.TENANT_TYPE) :
    ComplianceVerifier.verifyPartyCompliance s now sender party partyType =
      .ok (ComplianceVerifier.recordComplianceCheck s now sender party partyType true
            (keccakPacked [party, partyType, now]), true,
           keccakPacked [party, partyType, now]) := by
  unfold ComplianceVerifier.verifyPartyCompliance
  rw [if_neg hparty, if_neg (not_not_intro hty)]

/-- `verifyContractCompliance` passes — returning `true` and touching only the
compliance cache — whenever its parameters are configured, the agreement
exists, and its landlord and tenant are nonzero (the party checks and the
property check always pass in this revision). -/
theorem verifyContractCompliance_ok (s : SystemState) (now sender agreementId : Nat)
    (hp : s.compliancePaused = false) (ha : s.paramsActive = true)
    (hex : (s.agreements agreementId).propertyId ≠ 0)
    (hl : (s.agreements agreementId).landlord ≠ 0)
    (ht : (s.agreements agreementId).tenant ≠ 0) :
    ∃ cc fh, ComplianceVerifier.verifyContractCompliance s now sender agreementId =
      .ok ({ s with complianceChecks := cc }, true, fh) := by
  have hdet : RentalCore.getAgreementDetails s agreementId = .ok (s.agreements agreementId) := by
    simp [RentalCore.getAgreementDetails, hex]
  unfold ComplianceVerifier.verifyContractCompliance
  rw [if_neg (by simp [hp]), if_neg (by simp [ha])]
  simp only [hdet, ebind_ok, verifyPartyCompliance_ok _ _ _ _ _ hl (Or.inl rfl),
    verifyPartyCompliance_ok _ _ _ _ _ ht (Or.inr rfl),
    ComplianceVerifier.verifyPropertyCompliance]
  exact ⟨_, _, rfl⟩

/-- `terminateAgreement` reverts whenever the agreement's status is not
`Active` (the status `require` or an earlier check fires). -/
theorem terminate_reverts_of_not_active (s : SystemState) (now caller agreementId : Nat)
    (h : (s.agreements agreementId).status ≠ .Active) :
    reverted (RentalCore.terminateAgreement s now caller agreementId) = true := by
  unfold RentalCore.terminateAgreement
  apply reverted_ite_error
  apply reverted_ite_error
  apply reverted_ite_error
  rw [if_pos h]
  rfl

/-- When the pause, existence and party checks pass but the status is not
`Active`, `terminateAgreement` fails with exactly the invalid-state error. -/
theorem terminate_not_active_error (s : SystemState) (now caller agreementId : Nat)
    (hcp : s.corePaused = false)
    (hex : (s.agreements agreementId).propertyId ≠ 0)
    (hparty : (s.agreements agreementId).landlord = caller ∨
              (s.agreements agreementId).tenant = caller)
    (hst : (s.agreements agreementId).status ≠ .Active) :
    RentalCore.terminateAgreement s now caller agreementId =
      .error "Agreement not active" := by
  unfold RentalCore.terminateAgreement
  rw [if_neg (by simp [hcp]), if_neg hex, if_neg (not_not_intro hparty), if_pos hst]

/-- A successful `_verifyPartyCompliance` only touches the compliance cache:
agreements and the pause flag are unchanged. -/
theorem verifyPartyCompliance_ok_state (s : SystemState)
    (now sender party partyType : Nat) (s₁ : SystemState) (c : Bool) (fh : Nat)
    (h : ComplianceVerifier.verifyPartyCompliance s now sender party partyType =
      .ok (s₁, c, fh)) :
    s₁.agreements = s.agreements ∧ s₁.corePaused = s.corePaused := by
  unfold ComplianceVerifier.verifyPartyCompliance at h
  split at h
  · exact Except.noConfusion h
  split at h
  · exact Except.noConfusion h
  injection h with h'
  rw [Prod.mk.injEq] at h'
  obtain ⟨hs, -⟩ := h'
  rw [← hs]
  exact ⟨rfl, rfl⟩

/-- A successful `verifyContractCompliance` only touches the compliance cache:
agreements and the pause flag are unchanged. -/
theorem verifyContractCompliance_ok_state (s : SystemState)
    (now sender agreementId : Nat) (s₁ : SystemState) (c : Bool) (fh : Nat)
    (h : ComplianceVerifier.verifyContractCompliance s now sender agreementId =
      .ok (s₁, c, fh)) :
    s₁.agreements = s.agreements ∧ s₁.corePaused = s.corePaused := by
  unfold ComplianceVerifier.verifyContractCompliance at h
  split at h
  · exact Except.noConfusion h
  split at h
  · exact Except.noConfusion h
  cases hd : RentalCore.getAgreementDetails s agreementId with
  | error e =>
    rw [hd] at h
    simp only [ebind_error] at h
    exact Except.noConfusion h
  | ok a =>
    rw [hd] at h
    simp only [ebind_ok] at h
    cases h1 : ComplianceVerifier.verifyPartyCompliance s now sender a.landlord
        ComplianceVerifier.LANDLORD_TYPE with
    | error e =>
      rw [h1] at h
      simp only [ebind_error] at h
      exact Except.noConfusion h
    | ok v1 =>
      obtain ⟨t1, c1, d1⟩ := v1
      rw [h1] at h
      simp only [ebind_ok] at h
      cases h2 : ComplianceVerifier.verifyPartyCompliance t1 now sender a.tenant
          ComplianceVerifier.TENANT_TYPE with
      | error e =>
        rw [h2] at h
        simp only [ebind_error] at h
        exact Except.noConfusion h
      | ok v2 =>
        obtain ⟨t2, c2, d2⟩ := v2
        rw [h2] at h
        simp only [ebind_ok, ComplianceVerifier.verifyPropertyCompliance] at h
        injection h with h'
        rw [Prod.mk.injEq] at h'
        obtain ⟨hs, -⟩ := h'
        obtain ⟨ha1, hc1⟩ := verifyPartyCompliance_ok_state s now sender a.landlord
          ComplianceVerifier.LANDLORD_TYPE t1 c1 d1 h1
        obtain ⟨ha2, hc2⟩ := verifyPartyCompliance_ok_state t1 now sender a.tenant
          ComplianceVerifier.TENANT_TYPE t2 c2 d2 h2
        rw [← hs]
        exact ⟨ha2.trans ha1, hc2.trans hc1⟩

/-- Inversion of a successful `terminateAgreement`: the prior status was
`Active`, the resulting status is `Terminated`, the core was not paused, and
the agreement's identity fields (existence, landlord, tenant) survive — the
caller was one of the parties. -/
theorem terminateAgreement_ok_shape (s : SystemState) (now caller agreementId : Nat)
    (s' : SystemState)
    (hok : RentalCore.terminateAgreement s now caller agreementId = .ok s') :
    (s.agreements agreementId).status = .Active
    ∧ (s'.agreements agreementId).status = .Terminated
    ∧ s.corePaused = false
    ∧ s'.corePaused = false
    ∧ (s.agreements agreementId).propertyId ≠ 0
    ∧ (s'.agreements agreementId).propertyId = (s.agreements agreementId).propertyId
    ∧ (s'.agreements agreementId).landlord = (s.agreements agreementId).landlord
    ∧ (s'.agreements agreementId).tenant = (s.agreements agreementId).tenant
    ∧ ((s.agreements agreementId).landlord = caller ∨
       (s.agreements agreementId).tenant = caller) := by
  unfold RentalCore.terminateAgreement at hok
  by_cases h1 : s.corePaused = true
  · rw [if_pos h1] at hok; exact Except.noConfusion hok
  rw [if_neg h1] at hok
  by_cases h2 : (s.agreements agreementId).propertyId = 0
  · rw [if_pos h2] at hok; exact Except.noConfusion hok
  rw [if_neg h2] at hok
  by_cases h3 : ¬ ((s.agreements agreementId).landlord = caller ∨
      (s.agreements agreementId).tenant = caller)
  · rw [if_pos h3] at hok; exact Except.noConfusion hok
  rw [if_neg h3] at hok
  by_cases h4 : ¬ ((s.agreements agreementId).status = .Active)
  · rw [if_pos h4] at hok; exact Except.noConfusion hok
  rw [if_neg h4] at hok
  have hpf : s.corePaused = false := by
    revert h1; cases s.corePaused <;> simp
  split at hok
  · exact Except.noConfusion hok
  · rename_i s₁ compliant snd heq
    split at hok
    · exact Except.noConfusion hok
    · injection hok with hs
      obtain ⟨hag, hcp⟩ := verifyContractCompliance_ok_state s now
        RentalCore.rentalCoreAddr agreementId s₁ compliant snd heq
      refine ⟨not_not.mp h4, ?_, hpf, ?_, h2, ?_, ?_, ?_, not_not.mp h3⟩
      · rw [← hs]; simp [updf]
      · rw [← hs]
        show s₁.corePaused = false
        rw [hcp]; exact hpf
      · rw [← hs]; simp [updf, hag]
      · rw [← hs]; simp [updf, hag]
      · rw [← hs]; simp [updf, hag]

/-- C3: `terminateAgreement` fails when the agreement does not exist; fails
when the caller is neither landlord nor tenant; fails when the status is not
`Active`; a success implies the prior status was `Active`, leaves the status
`Terminated`, and an immediate second call on the result fails with exactly
the invalid-state error `"Agreement not active"`; and whenever the compliance
re-check can pass (parameters configured, parties nonzero) a call by a party
on an `Active` agreement succeeds with resulting status `Terminated`. -/
theorem claim_C3_terminateAgreement_lifecycle (s : SystemState)
    (now caller agreementId : Nat) :
    ((s.agreements agreementId).propertyId = 0 →
      reverted (RentalCore.terminateAgreement s now caller agreementId) = true)
    ∧ ((s.agreements agreementId).landlord ≠ caller →
       (s.agreements agreementId).tenant ≠ caller →
      reverted (RentalCore.terminateAgreement s now caller agreementId) = true)
    ∧ ((s.agreements agreementId).status ≠ .Active →
      reverted (RentalCore.terminateAgreement s now caller agreementId) = true)
    ∧ (∀ s', RentalCore.terminateAgreement s now caller agreementId = .ok s' →
        (s.agreements agreementId).status = .Active
        ∧ (s'.agreements agreementId).status = .Terminated
        ∧ RentalCore.terminateAgreement s' now caller agreementId =
            .error "Agreement not active")
    ∧ (s.corePaused = false → s.compliancePaused = false → s.paramsActive = true →
       (s.agreements agreementId).propertyId ≠ 0 →
       (s.agreements agreementId).landlord ≠ 0 →
       (s.agreements agreementId).tenant ≠ 0 →
       ((s.agreements agreementId).landlord = caller ∨
        (s.agreements agreementId).tenant = caller) →
       (s.agreements agreementId).status = .Active →
       statusAfter (RentalCore.terminateAgreement s now caller agreementId) agreementId =
         some .Terminated) := by
  refine ⟨?_, ?_, ?_, ?_, ?_⟩
  · intro h
    unfold RentalCore.terminateAgreement
    apply reverted_ite_error
    rw [if_pos h]
    rfl
  · intro hl ht
    unfold RentalCore.terminateAgreement
    apply reverted_ite_error
    apply reverted_ite_error
    rw [if_pos (show ¬ _ from fun hor => hor.elim hl ht)]
    rfl
  · intro h
    exact terminate_reverts_of_not_active s now caller agreementId h
  · intro s' hok
    obtain ⟨hpre, hpost, hpf, hpf', hex, hpid, hll, htt, hparty⟩ :=
      terminateAgreement_ok_shape s now caller agreementId s' hok
    refine ⟨hpre, hpost, ?_⟩
    apply terminate_not_active_error
    · exact hpf'
    · rw [hpid]; exact hex
    · rcases hparty with h | h
      · exact Or.inl (by rw [hll]; exact h)
      · exact Or.inr (by rw [htt]; exact h)
    · rw [hpost]; decide
  · intro hcp hp ha hex hl ht hparty hact
    unfold RentalCore.terminateAgreement
    rw [if_neg (by simp [hcp]), if_neg hex, if_neg (not_not_intro hparty),
      if_neg (not_not_intro hact)]
    obtain ⟨cc, fh, hv⟩ :=
      verifyContractCompliance_ok s now RentalCore.rentalCoreAddr agreementId hp ha hex hl ht
    rw [hv]
    simp [statusAfter, updf]

/-- A state with one `Active` agreement (id 1, landlord 5, tenant 6) and the
compliance parameters configured. -/
def termState : SystemState :=
  { agreements := updf (fun _ => {}) 1
      { propertyId := 1, landlord := 5, tenant := 6, startDate := 100, endDate := 200,
        rentAmount := 10, depositAmount := 20, status := .Active, termsHash := 3 },
    paramsActive := true }

/-- Witness for C3: the landlord terminates the concrete Active agreement and
the status becomes `Terminated`. -/
theorem claim_C3_witness :
    statusAfter (RentalCore.terminateAgreement termState 0 5 1) 1 = some .Terminated :=
  (claim_C3_terminateAgreement_lifecycle termState 0 5 1).2.2.2.2
    rfl rfl rfl (by decide) (by decide) (by decide) (Or.inl rfl) rfl

/-! ## Claim C5 — deposit ledger invariant -/

theorem uadd_ok_inv {a b c : Nat} (h : uadd a b = .ok c) : c = a + b := by
  unfold uadd at h
  split at h
  · injection h with h'; exact h'.symm
  · exact Except.noConfusion h

/-- A successful `processDeposit` adds the full paid amount to the agreement's
deposit balance. -/
theorem processDeposit_ok_balance (s : SystemState) (now c value agreementId : Nat)
    (s' : SystemState) (b : Bool)
    (hok : PaymentManager.processDeposit s now c value agreementId = .ok (s', b)) :
    s'.depositBalances agreementId = s.depositBalances agreementId + value := by
  unfold PaymentManager.processDeposit at hok
  split at hok
  · exact Except.noConfusion hok
  cases hdet : RentalCore.getAgreementDetails s agreementId with
  | error e =>
    rw [hdet] at hok
    simp only [ebind_error] at hok
    exact Except.noConfusion hok
  | ok a =>
    rw [hdet] at hok
    simp only [ebind_ok] at hok
    split at hok
    · exact Except.noConfusion hok
    split at hok
    · exact Except.noConfusion hok
    cases hadd : uadd (s.depositBalances agreementId) value with
    | error e =>
      rw [hadd] at hok
      simp only [ebind_error] at hok
      exact Except.noConfusion hok
    | ok bal =>
      rw [hadd] at hok
      simp only [ebind_ok] at hok
      injection hok with h
      rw [Prod.mk.injEq] at h
      obtain ⟨h1, -⟩ := h
      rw [← h1]
      simp [updf, uadd_ok_inv hadd]

/-- A successful `releaseDeposit` requires sufficient balance and subtracts
the released amount. -/
theorem releaseDeposit_ok_balance (s : SystemState)
    (caller agreementId amount recipient : Nat) (x : Bool) (s' : SystemState) (b : Bool)
    (hok : PaymentManager.releaseDeposit s caller agreementId amount recipient x =
      .ok (s', b)) :
    amount ≤ s.depositBalances agreementId
    ∧ s'.depositBalances agreementId = s.depositBalances agreementId - amount := by
  unfold PaymentManager.releaseDeposit at hok
  by_cases h1 : s.paymentPaused = true
  · rw [if_pos h1] at hok; exact Except.noConfusion hok
  rw [if_neg h1] at hok
  by_cases h2 : ¬ ((s.hasRole caller .PAYMENT_MANAGER || s.hasRole caller .SYSTEM_ADMIN) = true)
  · rw [if_pos h2] at hok; exact Except.noConfusion hok
  rw [if_neg h2] at hok
  by_cases h3 : recipient = 0
  · rw [if_pos h3] at hok; exact Except.noConfusion hok
  rw [if_neg h3] at hok
  by_cases h4 : ¬ (amount ≤ s.depositBalances agreementId)
  · rw [if_pos h4] at hok; exact Except.noConfusion hok
  rw [if_neg h4] at hok
  by_cases h5 : ¬ (x = true)
  · rw [if_pos h5] at hok; exact Except.noConfusion hok
  rw [if_neg h5] at hok
  injection hok with h
  rw [Prod.mk.injEq] at h
  obtain ⟨h1, -⟩ := h
  refine ⟨not_not.mp h4, ?_⟩
  rw [← h1]
  simp [updf]

/-- One externally-invoked payment operation on a fixed agreement: a deposit
payment (`msg.value = value`) or a deposit release (`xferOk` = whether the ETH
transfer succeeds). -/
inductive PayOp where
  | deposit (caller value : Nat)
  | release (caller amount recipient : Nat) (xferOk : Bool)

/-- Run one payment operation against the agreement `agreementId`. -/
def runPayOp (agreementId now : Nat) (s : SystemState) : PayOp → Except String SystemState
  | .deposit caller value =>
    match PaymentManager.processDeposit s now caller value agreementId with
    | .ok (s', _) => .ok s'
    | .error e => .error e
  | .release caller amount recipient xferOk =>
    match PaymentManager.releaseDeposit s caller agreementId amount recipient xferOk with
    | .ok (s', _) => .ok s'
    | .error e => .error e

/-- Run a sequence of payment operations, `none` as soon as one reverts
(so `some` means every operation in the interleaving succeeded). -/
def runPayOps (agreementId now : Nat) : SystemState → List PayOp → Option SystemState
  | s, [] => some s
  | s, op :: ops =>
    match runPayOp agreementId now s op with
    | .ok s' => runPayOps agreementId now s' ops
    | .error _ => none

/-- Sum of the deposit amounts `a_1..a_n` of an operation sequence. -/
def depositTotal : List PayOp → Nat
  | [] => 0
  | .deposit _ v :: ops => v + depositTotal ops
  | .release _ _ _ _ :: ops => depositTotal ops

/-- Sum of the released amounts `r_1..r_m` of an operation sequence. -/
def releaseTotal : List PayOp → Nat
  | [] => 0
  | .deposit _ _ :: ops => releaseTotal ops
  | .release _ a _ _ :: ops => a + releaseTotal ops

/-- Ledger bookkeeping along any successful interleaving: the final balance
plus everything released equals the initial balance plus everything paid in. -/
theorem runPayOps_balance (agreementId now : Nat) :
    ∀ (ops : List PayOp) (s s' : SystemState),
    runPayOps agreementId now s ops = some s' →
    s'.depositBalances agreementId + releaseTotal ops =
      s.depositBalances agreementId + depositTotal ops := by
  intro ops
  induction ops with
  | nil =>
    intro s s' h
    simp only [runPayOps] at h
    injection h with h
    rw [h, depositTotal, releaseTotal]
  | cons op ops ih =>
    intro s s' h
    simp only [runPayOps] at h
    cases hop : runPayOp agreementId now s op with
    | error e => rw [hop] at h; exact Option.noConfusion h
    | ok s₁ =>
      rw [hop] at h
      have hrest := ih s₁ s' h
      cases op with
      | deposit caller value =>
        simp only [runPayOp] at hop
        cases hd : PaymentManager.processDeposit s now caller value agreementId with
        | error e => rw [hd] at hop; exact Except.noConfusion hop
        | ok p =>
          obtain ⟨t, bl⟩ := p
          rw [hd] at hop
          injection hop with hop
          have hbal := processDeposit_ok_balance s now caller value agreementId t bl hd
          rw [← hop] at hrest
          rw [depositTotal, releaseTotal]
          omega
      | release caller amount recipient xferOk =>
        simp only [runPayOp] at hop
        cases hd : PaymentManager.releaseDeposit s caller agreementId amount recipient
            xferOk with
        | error e => rw [hd] at hop; exact Except.noConfusion hop
        | ok p =>
          obtain ⟨t, bl⟩ := p
          rw [hd] at hop
          injection hop with hop
          have hbal := releaseDeposit_ok_balance s caller agreementId amount recipient
            xferOk t bl hd
          rw [← hop] at hrest
          rw [depositTotal, releaseTotal]
          omega

/-- C5: starting from a zero deposit balance, after any interleaving of
successful deposits `a_1..a_n` and successful releases `r_1..r_m` the stored
`depositBalance` equals `Σa_i − Σr_j` (and the releases never exceed the
deposits); moreover `releaseDeposit` reverts whenever the requested amount
exceeds the balance at the time of the call, in every state. -/
theorem claim_C5_deposit_ledger_invariant (agreementId now : Nat)
    (s s' : SystemState) (ops : List PayOp)
    (h0 : s.depositBalances agreementId = 0)
    (hrun : runPayOps agreementId now s ops = some s') :
    s'.depositBalances agreementId = depositTotal ops - releaseTotal ops
    ∧ releaseTotal ops ≤ depositTotal ops
    ∧ (∀ (t : SystemState) (caller amount recipient : Nat) (x : Bool),
        t.depositBalances agreementId < amount →
        reverted (PaymentManager.releaseDeposit t caller agreementId amount recipient x) =
          true) := by
  have hb := runPayOps_balance agreementId now ops s s' hrun
  rw [h0] at hb
  refine ⟨by omega, by omega, ?_⟩
  intro t caller amount recipient x hlt
  unfold PaymentManager.releaseDeposit
  apply reverted_ite_error
  apply reverted_ite_error
  apply reverted_ite_error
  rw [if_pos (show ¬ (amount ≤ t.depositBalances agreementId) by omega)]
  rfl

/-- A state with one `Active` agreement (id 1, deposit 5) and an authorized
payment manager (address 9). -/
def payState : SystemState :=
  { agreements := updf (fun _ => {}) 1
      { propertyId := 1, landlord := 5, tenant := 6, startDate := 100, endDate := 200,
        rentAmount := 10, depositAmount := 5, status := .Active, termsHash := 3 },
    hasRole := fun a r => decide (a = 9 ∧ r = Role.SYSTEM_ADMIN) }

/-- A concrete interleaving: two deposits (10 then 7) around two releases
(4 then 6); all four succeed. -/
def payOps : List PayOp :=
  [.deposit 6 10, .release 9 4 8 true, .deposit 6 7, .release 9 6 8 true]

/-- The final state of the concrete interleaving. -/
def payFinal : SystemState :=
  (runPayOps 1 150 payState payOps).getD {}

/-- Witness for C5: the concrete run succeeds and the final balance is
`(10 + 7) − (4 + 6) = 7`. -/
theorem claim_C5_witness :
    payFinal.depositBalances 1 = depositTotal payOps - releaseTotal payOps
    ∧ depositTotal payOps - releaseTotal payOps = 7 :=
  ⟨(claim_C5_deposit_ledger_invariant 1 150 payState payFinal payOps rfl rfl).1,
   by decide⟩

/-! ## Claim C6 — `processRentPayment` -/

/-- Shifting the accumulator out of the confirmed-rent fold. -/
theorem sumConfirmedRent_shift (l : List PaymentRecord) (acc : Nat) :
    List.foldl
      (fun acc r => if r.paymentType = .Rent ∧ r.confirmed then acc + r.amount else acc)
      acc l = acc + PaymentManager.sumConfirmedRent l := by
  induction l generalizing acc with
  | nil => simp [PaymentManager.sumConfirmedRent]
  | cons r l ih =>
    simp only [PaymentManager.sumConfirmedRent, List.foldl_cons]
    rw [ih, ih]
    by_cases hc : r.paymentType = PaymentType.Rent ∧ r.confirmed = true
    · simp only [if_pos hc]
      omega
    · simp only [if_neg hc]
      omega

/-- Unfolding one record of the confirmed-rent sum. -/
theorem sumConfirmedRent_cons (r : PaymentRecord) (l : List PaymentRecord) :
    PaymentManager.sumConfirmedRent (r :: l) =
      (if r.paymentType = .Rent ∧ r.confirmed then r.amount else 0) +
        PaymentManager.sumConfirmedRent l := by
  have h1 : PaymentManager.sumConfirmedRent (r :: l) =
      List.foldl
        (fun acc r => if r.paymentType = .Rent ∧ r.confirmed then acc + r.amount else acc)
        (if r.paymentType = .Rent ∧ r.confirmed then 0 + r.amount else 0) l := rfl
  rw [h1, sumConfirmedRent_shift]
  by_cases hc : r.paymentType = PaymentType.Rent ∧ r.confirmed = true
  · simp [hc]
  · simp [hc]

/-- Appending a record to the confirmed-rent sum. -/
theorem sumConfirmedRent_append (l : List PaymentRecord) (r : PaymentRecord) :
    PaymentManager.sumConfirmedRent (l ++ [r]) =
      PaymentManager.sumConfirmedRent l +
        (if r.paymentType = .Rent ∧ r.confirmed then r.amount else 0) := by
  induction l with
  | nil =>
    rw [List.nil_append, sumConfirmedRent_cons]
    have h0 : PaymentManager.sumConfirmedRent ([] : List PaymentRecord) = 0 := rfl
    rw [h0]
    omega
  | cons a l ih =>
    rw [List.cons_append, sumConfirmedRent_cons, ih, sumConfirmedRent_cons]
    omega

/-- The SafeMath fold of `_updateOutstandingBalance` succeeds with the plain
sum whenever that sum stays below 2^256. -/
theorem sumConfirmedRentChecked_ok_general :
    ∀ (l : List PaymentRecord) (acc : Nat),
    acc + PaymentManager.sumConfirmedRent l < UINT_MOD →
    List.foldlM
      (fun acc r => if r.paymentType = .Rent ∧ r.confirmed then uadd acc r.amount
        else .ok acc)
      acc l = .ok (acc + PaymentManager.sumConfirmedRent l) := by
  intro l
  induction l with
  | nil =>
    intro acc h
    rfl
  | cons r l ih =>
    intro acc h
    rw [sumConfirmedRent_cons] at h
    simp only [List.foldlM]
    by_cases hc : r.paymentType = PaymentType.Rent ∧ r.confirmed = true
    · rw [if_pos hc]
      rw [if_pos hc] at h
      rw [uadd_ok_of_lt (by omega)]
      rw [ebind_ok]
      rw [ih (acc + r.amount) (by omega)]
      rw [sumConfirmedRent_cons, if_pos hc]
      rw [Nat.add_assoc]
    · rw [if_neg hc]
      rw [if_neg hc] at h
      rw [ebind_ok]
      rw [ih acc (by omega)]
      rw [sumConfirmedRent_cons, if_neg hc, Nat.zero_add]

/-- `sumConfirmedRentChecked` as the plain sum, absent overflow. -/
theorem sumConfirmedRentChecked_ok (l : List PaymentRecord)
    (h : PaymentManager.sumConfirmedRent l < UINT_MOD) :
    PaymentManager.sumConfirmedRentChecked l = .ok (PaymentManager.sumConfirmedRent l) := by
  unfold PaymentManager.sumConfirmedRentChecked
  have := sumConfirmedRentChecked_ok_general l 0 (by omega)
  rw [Nat.zero_add] at this
  exact this

/-- Inversion of a successful `getAgreementDetails`. -/
theorem getAgreementDetails_ok (s : SystemState) (agreementId : Nat) (a : Agreement)
    (h : RentalCore.getAgreementDetails s agreementId = .ok a) :
    a = s.agreements agreementId ∧ (s.agreements agreementId).propertyId ≠ 0 := by
  unfold RentalCore.getAgreementDetails at h
  split at h
  · exact Except.noConfusion h
  · injection h with h'
    exact ⟨h'.symm, by assumption⟩

/-- `AgreementStatus.toNat` hits 1 only at `Active`. -/
theorem status_toNat_eq_one_iff (st : AgreementStatus) :
    st.toNat = 1 ↔ st = .Active := by
  cases st <;> simp [AgreementStatus.toNat]

/-- `_updateOutstandingBalance` recomputes the balance as the truncated
difference `expected − paid` whenever the SafeMath steps stay in range. -/
theorem updateOutstandingBalance_eq (t : SystemState) (now agreementId : Nat)
    (hex : (t.agreements agreementId).propertyId ≠ 0)
    (hstart : (t.agreements agreementId).startDate ≤ now)
    (hm : (now - (t.agreements agreementId).startDate) / PaymentManager.THIRTY_DAYS + 1 <
      UINT_MOD)
    (hexp : (t.agreements agreementId).rentAmount *
      ((now - (t.agreements agreementId).startDate) / PaymentManager.THIRTY_DAYS + 1) <
      UINT_MOD)
    (hsum : PaymentManager.sumConfirmedRent (t.paymentHistory agreementId) < UINT_MOD) :
    PaymentManager.updateOutstandingBalance t now agreementId =
      .ok { t with
            outstandingBalance := updf t.outstandingBalance agreementId
              ((t.agreements agreementId).rentAmount *
                ((now - (t.agreements agreementId).startDate) /
                  PaymentManager.THIRTY_DAYS + 1) -
               PaymentManager.sumConfirmedRent (t.paymentHistory agreementId)) } := by
  have hdet : RentalCore.getAgreementDetails t agreementId = .ok (t.agreements agreementId) := by
    simp [RentalCore.getAgreementDetails, hex]
  unfold PaymentManager.updateOutstandingBalance
  rw [hdet]
  simp only [ebind_ok]
  rw [usub_ok_of_le hstart]
  simp only [ebind_ok]
  rw [uadd_ok_of_lt hm]
  simp only [ebind_ok]
  rw [umul_ok_of_lt hexp]
  simp only [ebind_ok]
  rw [sumConfirmedRentChecked_ok _ hsum]
  simp only [ebind_ok]
  have harith :
      (if (t.agreements agreementId).rentAmount *
            ((now - (t.agreements agreementId).startDate) /
              PaymentManager.THIRTY_DAYS + 1) >
          PaymentManager.sumConfirmedRent (t.paymentHistory agreementId) then
        (t.agreements agreementId).rentAmount *
            ((now - (t.agreements agreementId).startDate) /
              PaymentManager.THIRTY_DAYS + 1) -
          PaymentManager.sumConfirmedRent (t.paymentHistory agreementId)
      else 0) =
      (t.agreements agreementId).rentAmount *
          ((now - (t.agreements agreementId).startDate) /
            PaymentManager.THIRTY_DAYS + 1) -
        PaymentManager.sumConfirmedRent (t.paymentHistory agreementId) := by
    split <;> omega
  rw [harith]
  rfl

/-- Forward computation of a successful `processRentPayment`: provided the
agreement exists and is `Active`, the paid amount covers the rent, `now` is
not before `startDate`, and the SafeMath steps stay in range, the call
succeeds, appends the confirmed `Rent` record, stamps `lastPaymentDate`, and
recomputes the outstanding balance from the post-payment history. -/
theorem processRentPayment_success (s : SystemState) (now caller value agreementId : Nat)
    (hnp : s.paymentPaused = false)
    (hex : (s.agreements agreementId).propertyId ≠ 0)
    (hact : (s.agreements agreementId).status = .Active)
    (hval : (s.agreements agreementId).rentAmount ≤ value)
    (hstart : (s.agreements agreementId).startDate ≤ now)
    (hm : (now - (s.agreements agreementId).startDate) / PaymentManager.THIRTY_DAYS + 1 <
      UINT_MOD)
    (hexp : (s.agreements agreementId).rentAmount *
      ((now - (s.agreements agreementId).startDate) / PaymentManager.THIRTY_DAYS + 1) <
      UINT_MOD)
    (hsum : PaymentManager.sumConfirmedRent (s.paymentHistory agreementId) + value <
      UINT_MOD) :
    ∃ s', PaymentManager.processRentPayment s now caller value agreementId = .ok (s', true)
      ∧ s'.paymentHistory agreementId = s.paymentHistory agreementId ++
          [{ timestamp := now, amount := value, paymentType := .Rent, confirmed := true }]
      ∧ s'.lastPaymentDate agreementId = now
      ∧ s'.outstandingBalance agreementId =
          (s.agreements agreementId).rentAmount *
            ((now - (s.agreements agreementId).startDate) / PaymentManager.THIRTY_DAYS + 1)
          - (PaymentManager.sumConfirmedRent (s.paymentHistory agreementId) + value) := by
  have hdet : RentalCore.getAgreementDetails s agreementId =
      .ok (s.agreements agreementId) := by
    simp [RentalCore.getAgreementDetails, hex]
  unfold PaymentManager.processRentPayment
  rw [if_neg (by simp [hnp])]
  rw [hdet]
  simp only [ebind_ok]
  rw [if_neg (not_not_intro
    (show (s.agreements agreementId).status.toNat = 1 from by rw [hact]; rfl))]
  rw [if_neg (show ¬ (value < (s.agreements agreementId).rentAmount) by omega)]
  set newRec : PaymentRecord :=
    { timestamp := now, amount := value, paymentType := .Rent, confirmed := true } with hrec
  set s₁ : SystemState := { s with
    paymentHistory := updf s.paymentHistory agreementId
      (s.paymentHistory agreementId ++ [newRec]),
    lastPaymentDate := updf s.lastPaymentDate agreementId now } with hs₁
  have h₁hist : s₁.paymentHistory agreementId =
      s.paymentHistory agreementId ++ [newRec] := by
    rw [hs₁]; simp [updf]
  have h₁sum : PaymentManager.sumConfirmedRent (s₁.paymentHistory agreementId) =
      PaymentManager.sumConfirmedRent (s.paymentHistory agreementId) + value := by
    rw [h₁hist, sumConfirmedRent_append]
    simp [hrec]
  have hupd := updateOutstandingBalance_eq s₁ now agreementId hex hstart hm hexp
    (by rw [h₁sum]; omega)
  rw [hupd]
  simp only [ebind_ok]
  refine ⟨_, rfl, ?_, ?_, ?_⟩
  · rw [show ({ s₁ with
        outstandingBalance := updf s₁.outstandingBalance agreementId
          ((s₁.agreements agreementId).rentAmount *
            ((now - (s₁.agreements agreementId).startDate) /
              PaymentManager.THIRTY_DAYS + 1) -
           PaymentManager.sumConfirmedRent (s₁.paymentHistory agreementId)) } :
        SystemState).paymentHistory = s₁.paymentHistory from rfl]
    exact h₁hist
  · simp [updf]
  · rw [show ({ s₁ with
        outstandingBalance := updf s₁.outstandingBalance agreementId
          ((s₁.agreements agreementId).rentAmount *
            ((now - (s₁.agreements agreementId).startDate) /
              PaymentManager.THIRTY_DAYS + 1) -
           PaymentManager.sumConfirmedRent (s₁.paymentHistory agreementId)) } :
        SystemState).outstandingBalance = updf s₁.outstandingBalance agreementId
          ((s₁.agreements agreementId).rentAmount *
            ((now - (s₁.agreements agreementId).startDate) /
              PaymentManager.THIRTY_DAYS + 1) -
           PaymentManager.sumConfirmedRent (s₁.paymentHistory agreementId)) from rfl]
    rw [h₁sum]
    simp [updf]

/-- C6 counterexample: agreement 1 is `Active`, the paid amount equals the
rent, yet paying before `startDate` (now = 50 < 100) reverts with a SafeMath
underflow inside the balance recomputation, where the claim asserts the
payment is recorded. -/
theorem claim_C6_counterexample :
    (payState.agreements 1).status = .Active
    ∧ (payState.agreements 1).rentAmount ≤ 10
    ∧ PaymentManager.processRentPayment payState 50 6 10 1 =
        .error "SafeMath: subtraction overflow" :=
  ⟨rfl, by decide, rfl⟩

/-- C6 amended: `processRentPayment` fails while the agreement's status is not
`Active`; fails with the insufficient-payment error when the paid amount is
below `rentAmount`; and otherwise — *provided `now ≥ startDate`* (else the
balance recomputation underflows and the whole call reverts) and the SafeMath
steps stay in range — appends a confirmed `Rent` record and recomputes
`outstandingBalance = rentAmount × (monthsElapsedSinceStart + 1) − (sum of all
confirmed Rent payments including this one)`, floored at 0 by the truncated
subtraction, with `monthsElapsedSinceStart = (now − startDate) / 30 days`. -/
theorem claim_C6_amended_processRentPayment (s : SystemState)
    (now caller value agreementId : Nat) :
    ((s.agreements agreementId).status ≠ .Active →
      reverted (PaymentManager.processRentPayment s now caller value agreementId) = true)
    ∧ (s.paymentPaused = false → (s.agreements agreementId).propertyId ≠ 0 →
       (s.agreements agreementId).status = .Active →
       value < (s.agreements agreementId).rentAmount →
       PaymentManager.processRentPayment s now caller value agreementId =
         .error "Insufficient payment")
    ∧ (s.paymentPaused = false → (s.agreements agreementId).propertyId ≠ 0 →
       (s.agreements agreementId).status = .Active →
       (s.agreements agreementId).rentAmount ≤ value →
       (s.agreements agreementId).startDate ≤ now →
       (now - (s.agreements agreementId).startDate) / PaymentManager.THIRTY_DAYS + 1 <
         UINT_MOD →
       (s.agreements agreementId).rentAmount *
         ((now - (s.agreements agreementId).startDate) / PaymentManager.THIRTY_DAYS + 1) <
         UINT_MOD →
       PaymentManager.sumConfirmedRent (s.paymentHistory agreementId) + value <
         UINT_MOD →
       ∃ s', PaymentManager.processRentPayment s now caller value agreementId =
           .ok (s', true)
         ∧ s'.paymentHistory agreementId = s.paymentHistory agreementId ++
             [{ timestamp := now, amount := value, paymentType := .Rent, confirmed := true }]
         ∧ s'.lastPaymentDate agreementId = now
         ∧ s'.outstandingBalance agreementId =
             (s.agreements agreementId).rentAmount *
               ((now - (s.agreements agreementId).startDate) /
                 PaymentManager.THIRTY_DAYS + 1)
             - (PaymentManager.sumConfirmedRent (s.paymentHistory agreementId) + value)) := by
  refine ⟨?_, ?_, ?_⟩
  · intro hst
    unfold PaymentManager.processRentPayment
    apply reverted_ite_error
    cases hdet : RentalCore.getAgreementDetails s agreementId with
    | error e => rfl
    | ok a =>
      obtain ⟨ha, -⟩ := getAgreementDetails_ok s agreementId a hdet
      simp only [ebind_ok]
      rw [if_pos (show ¬ (a.status.toNat = 1) from by
        rw [ha]
        intro hcontra
        exact hst ((status_toNat_eq_one_iff _).mp hcontra))]
      rfl
  · intro hnp hex hact hval
    have hdet : RentalCore.getAgreementDetails s agreementId =
        .ok (s.agreements agreementId) := by
      simp [RentalCore.getAgreementDetails, hex]
    unfold PaymentManager.processRentPayment
    rw [if_neg (by simp [hnp]), hdet]
    simp only [ebind_ok]
    rw [if_neg (not_not_intro
      (show (s.agreements agreementId).status.toNat = 1 from by rw [hact]; rfl))]
    rw [if_pos hval]
  · intro hnp hex hact hval hstart hm hexp hsum
    exact processRentPayment_success s now caller value agreementId
      hnp hex hact hval hstart hm hexp hsum

/-- Witness for C6's amended theorem: a first rent payment of exactly the rent
(10) at `now = 150` on the concrete Active agreement (start 100) succeeds and
clears the outstanding balance. -/
theorem claim_C6_witness :
    ∃ s', PaymentManager.processRentPayment payState 150 6 10 1 = .ok (s', true)
      ∧ s'.paymentHistory 1 = payState.paymentHistory 1 ++
          [{ timestamp := 150, amount := 10, paymentType := .Rent, confirmed := true }]
      ∧ s'.lastPaymentDate 1 = 150
      ∧ s'.outstandingBalance 1 =
          (payState.agreements 1).rentAmount *
            ((150 - (payState.agreements 1).startDate) / PaymentManager.THIRTY_DAYS + 1)
          - (PaymentManager.sumConfirmedRent (payState.paymentHistory 1) + 10) :=
  (claim_C6_amended_processRentPayment payState 150 6 10 1).2.2
    rfl (by decide) rfl (by decide) (by decide) (by decide) (by decide) (by decide)

/-! ## Claim C7 — `calculateOutstandingRent` late fees -/

/-- `_calculateLateFees` returns 0 within the 5-whole-day grace window after
the effective last payment date (which falls back to `startDate` when no
payment is recorded). -/
theorem calculateLateFees_grace (s : SystemState) (now agreementId : Nat)
    (hex : (s.agreements agreementId).propertyId ≠ 0)
    (hle : (if s.lastPaymentDate agreementId = 0 then (s.agreements agreementId).startDate
            else s.lastPaymentDate agreementId) ≤ now)
    (hdays : (now - (if s.lastPaymentDate agreementId = 0 then
        (s.agreements agreementId).startDate
        else s.lastPaymentDate agreementId)) / 86400 ≤ 5) :
    PaymentManager.calculateLateFees s now agreementId = .ok 0 := by
  have hdet : RentalCore.getAgreementDetails s agreementId =
      .ok (s.agreements agreementId) := by
    simp [RentalCore.getAgreementDetails, hex]
  unfold PaymentManager.calculateLateFees
  rw [hdet]
  simp only [ebind_ok]
  rw [usub_ok_of_le hle]
  simp only [ebind_ok, PaymentManager.SECONDS_PER_DAY, PaymentManager.GRACE_PERIOD_DAYS]
  rw [if_pos hdays]
  rfl

/-- `_calculateLateFees` returns the flat `rentAmount * 10 / 100` as soon as
more than 5 whole days have elapsed, independent of how many. -/
theorem calculateLateFees_late (s : SystemState) (now agreementId : Nat)
    (hex : (s.agreements agreementId).propertyId ≠ 0)
    (hle : (if s.lastPaymentDate agreementId = 0 then (s.agreements agreementId).startDate
            else s.lastPaymentDate agreementId) ≤ now)
    (hdays : 5 < (now - (if s.lastPaymentDate agreementId = 0 then
        (s.agreements agreementId).startDate
        else s.lastPaymentDate agreementId)) / 86400)
    (hmul : (s.agreements agreementId).rentAmount * 10 < UINT_MOD) :
    PaymentManager.calculateLateFees s now agreementId =
      .ok ((s.agreements agreementId).rentAmount * 10 / 100) := by
  have hdet : RentalCore.getAgreementDetails s agreementId =
      .ok (s.agreements agreementId) := by
    simp [RentalCore.getAgreementDetails, hex]
  unfold PaymentManager.calculateLateFees
  rw [hdet]
  simp only [ebind_ok]
  rw [usub_ok_of_le hle]
  simp only [ebind_ok, PaymentManager.SECONDS_PER_DAY, PaymentManager.GRACE_PERIOD_DAYS,
    PaymentManager.LATE_FEE_PERCENTAGE]
  rw [if_neg (by omega)]
  rw [umul_ok_of_lt hmul]
  simp only [ebind_ok]
  rfl

/-- C7: for every existing agreement, `calculateOutstandingRent` reports
`lateFees = 0` whenever at most 5 whole days have elapsed since the last
payment date (or since `startDate` when no payment is recorded), and reports
the flat `lateFees = rentAmount × 10 / 100` (`LATE_FEE_PERCENTAGE = 10`, the
payment module's constant, distinct from the 11.85% statutory formula of the
standalone utility) whenever more than 5 whole days have elapsed, however
many. -/
theorem claim_C7_flat_late_fee (s : SystemState) (now agreementId : Nat)
    (hex : (s.agreements agreementId).propertyId ≠ 0)
    (hle : (if s.lastPaymentDate agreementId = 0 then (s.agreements agreementId).startDate
            else s.lastPaymentDate agreementId) ≤ now) :
    ((now - (if s.lastPaymentDate agreementId = 0 then
        (s.agreements agreementId).startDate
        else s.lastPaymentDate agreementId)) / 86400 ≤ 5 →
      PaymentManager.calculateOutstandingRent s now agreementId =
        .ok (s.outstandingBalance agreementId, 0))
    ∧ (5 < (now - (if s.lastPaymentDate agreementId = 0 then
        (s.agreements agreementId).startDate
        else s.lastPaymentDate agreementId)) / 86400 →
      (s.agreements agreementId).rentAmount * 10 < UINT_MOD →
      PaymentManager.calculateOutstandingRent s now agreementId =
        .ok (s.outstandingBalance agreementId,
             (s.agreements agreementId).rentAmount * 10 / 100)) := by
  constructor
  · intro hdays
    unfold PaymentManager.calculateOutstandingRent
    rw [calculateLateFees_grace s now agreementId hex hle hdays]
    simp only [ebind_ok]
    rfl
  · intro hdays hmul
    unfold PaymentManager.calculateOutstandingRent
    rw [calculateLateFees_late s now agreementId hex hle hdays hmul]
    simp only [ebind_ok]
    rfl

/-- Witness for C7: on the concrete Active agreement with no payment recorded
(effective last payment date = `startDate` = 100), six whole days later the
reported late fee is the flat 10% of the rent: `10 × 10 / 100 = 1`. -/
theorem claim_C7_witness :
    PaymentManager.calculateOutstandingRent payState (100 + 6 * 86400) 1 =
      .ok (payState.outstandingBalance 1, (payState.agreements 1).rentAmount * 10 / 100) :=
  (claim_C7_flat_late_fee payState (100 + 6 * 86400) 1 (by decide) (by decide)).2
    (by decide) (by decide)

end EstateBoards
